import Mathlib

/-!
Verification development for the auth-vault service.

The Python sources under `app/` are shallowly embedded below:

* Python `bytes` values are `List Nat` with every element `< 256`; a Python
  `str` carrying token material is modelled by its UTF-8 byte sequence
  (`str.encode` / `bytes.decode` become the identity at this level).
* Hex strings (`bytes.hex()` / `bytes.fromhex`) are `List Char`.
* Exceptions are an explicit error type threaded through `Except`.
* The AES block operation (the `cryptography` library) is an abstract
  `BlockCipher` parameter; CBC chaining, PKCS7 padding and hex codecs are
  embedded concretely, following `app/services/encryption.py`.
-/

namespace AuthVault

/-- Errors: each constructor corresponds to a Python exception class of
`app/core/exceptions.py`, to a builtin Python exception, or to a library
exception observed by the embedded code. -/
inductive Err where
  | valueError (msg : String)
  | indexError
  | typeError (msg : String)
  | multipleResultsFound
  | tokenNotFound (msg : String)
  | invalidStateToken (msg : String)
  | unauthorized (msg : String)
  | validationError (msg : String)
  | invalidRequest (msg : String)
  | keycloakError (msg : String) (status : Nat)
  | authManagerError (code : String) (msg : String)
  | pydanticValidationError (msg : String)
  deriving DecidableEq, Repr

/-- The `code` attribute carried by the exception hierarchy of
`app/core/exceptions.py`; builtin Python exceptions are mapped to their
class names. -/
def Err.kind : Err → String
  | .valueError _ => "ValueError"
  | .indexError => "IndexError"
  | .typeError _ => "TypeError"
  | .multipleResultsFound => "MultipleResultsFound"
  | .tokenNotFound _ => "token_not_found"
  | .invalidStateToken _ => "invalid_state_token"
  | .unauthorized _ => "unauthorized"
  | .validationError _ => "validation_error"
  | .invalidRequest _ => "invalid_request"
  | .keycloakError _ _ => "keycloak_error"
  | .authManagerError code _ => code
  | .pydanticValidationError _ => "pydantic.ValidationError"

/-! ## Bytes and hex codecs (`bytes.hex`, `bytes.fromhex`) -/

/-- A valid byte sequence: every element is below 256. -/
def BytesOk (bs : List Nat) : Prop := ∀ x ∈ bs, x < 256

instance : DecidablePred BytesOk := fun bs =>
  inferInstanceAs (Decidable (∀ x ∈ bs, x < 256))

/-- Lowercase hex rendering of one byte, as produced by `bytes.hex()`. -/
def byteToHex (b : Nat) : List Char := [Nat.digitChar (b / 16), Nat.digitChar (b % 16)]

/-- `bytes.hex()`: lowercase hex string of a byte sequence. -/
def bytesToHex (bs : List Nat) : List Char := (bs.map byteToHex).flatten

/-- Value of a single hex digit character, if it is one (`int(c, 16)`),
computed from the code point: decimal digits occupy 48–57, the lowercase
letters a–f occupy 97–102, the uppercase A–F occupy 65–70. -/
def hexDigitVal? (c : Char) : Option Nat :=
  if 48 ≤ c.toNat ∧ c.toNat ≤ 57 then some (c.toNat - 48)
  else if 97 ≤ c.toNat ∧ c.toNat ≤ 102 then some (c.toNat - 87)
  else if 65 ≤ c.toNat ∧ c.toNat ≤ 70 then some (c.toNat - 55)
  else none

/-- `bytes.fromhex`: parses pairs of hex digits; `none` models the
`ValueError` raised on an odd-length or non-hex string. -/
def hexToBytes? : List Char → Option (List Nat)
  | [] => some []
  | [_] => none
  | c1 :: c2 :: rest =>
    match hexDigitVal? c1, hexDigitVal? c2, hexToBytes? rest with
    | some d1, some d2, some bs => some ((16 * d1 + d2) :: bs)
    | _, _, _ => none

theorem hexDigitVal_digitChar : ∀ d, d < 16 → hexDigitVal? (Nat.digitChar d) = some d := by
  decide

theorem hexDigitVal_lt (c : Char) (d : Nat) (h : hexDigitVal? c = some d) : d < 16 := by
  unfold hexDigitVal? at h
  by_cases h1 : 48 ≤ c.toNat ∧ c.toNat ≤ 57
  · rw [if_pos h1] at h
    simp at h
    omega
  · rw [if_neg h1] at h
    by_cases h2 : 97 ≤ c.toNat ∧ c.toNat ≤ 102
    · rw [if_pos h2] at h
      simp at h
      omega
    · rw [if_neg h2] at h
      by_cases h3 : 65 ≤ c.toNat ∧ c.toNat ≤ 70
      · rw [if_pos h3] at h
        simp at h
        omega
      · rw [if_neg h3] at h
        simp at h

theorem hexToBytes_bytesToHex (bs : List Nat) (h : BytesOk bs) :
    hexToBytes? (bytesToHex bs) = some bs := by
  induction bs with
  | nil => simp [bytesToHex, hexToBytes?]
  | cons b rest ih =>
    have hb : b < 256 := h b (List.mem_cons_self b rest)
    have hrest : BytesOk rest := fun x hx => h x (List.mem_cons_of_mem b hx)
    have hd1 : b / 16 < 16 := Nat.div_lt_of_lt_mul hb
    have hd2 : b % 16 < 16 := Nat.mod_lt b (by norm_num)
    have hstep : bytesToHex (b :: rest) =
        Nat.digitChar (b / 16) :: Nat.digitChar (b % 16) :: bytesToHex rest := by
      simp [bytesToHex, byteToHex]
    rw [hstep]
    simp only [hexToBytes?]
    rw [hexDigitVal_digitChar _ hd1, hexDigitVal_digitChar _ hd2, ih hrest]
    simp [Nat.div_add_mod]

theorem hexToBytes_bytesOk : ∀ (cs : List Char) (bs : List Nat),
    hexToBytes? cs = some bs → BytesOk bs
  | [], bs, h => by
    simp [hexToBytes?] at h
    intro x hx
    rw [h] at hx
    simp at hx
  | [_], _, h => by
    simp [hexToBytes?] at h
  | c1 :: c2 :: rest, bs, h => by
    unfold hexToBytes? at h
    cases h1 : hexDigitVal? c1 with
    | none => rw [h1] at h; simp at h
    | some d1 =>
      cases h2 : hexDigitVal? c2 with
      | none => rw [h1, h2] at h; simp at h
      | some d2 =>
        cases h3 : hexToBytes? rest with
        | none => rw [h1, h2, h3] at h; simp at h
        | some tl =>
          rw [h1, h2, h3] at h
          simp at h
          subst h
          intro x hx
          rcases List.mem_cons.mp hx with hx | hx
          · have hv1 : d1 < 16 := hexDigitVal_lt c1 d1 h1
            have hv2 : d2 < 16 := hexDigitVal_lt c2 d2 h2
            omega
          · exact hexToBytes_bytesOk rest tl h3 x hx

theorem flatten_length_of_blocks : ∀ (blocks : List (List Nat)),
    (∀ b ∈ blocks, b.length = 16) → blocks.flatten.length = 16 * blocks.length
  | [], _ => rfl
  | b :: blocks, h => by
    rw [List.flatten_cons, List.length_append,
      flatten_length_of_blocks blocks (fun c hc => h c (List.mem_cons_of_mem b hc)),
      h b (List.mem_cons_self b blocks)]
    simp [Nat.mul_succ, Nat.add_comm]

theorem flatten_bytesOk (blocks : List (List Nat))
    (h : ∀ b ∈ blocks, BytesOk b) : BytesOk blocks.flatten := by
  intro x hx
  obtain ⟨b, hb, hxb⟩ := List.mem_flatten.mp hx
  exact h b hb x hxb

/-! ## Block cipher model and CBC mode

`encryption.py` delegates the AES-256 block operation to the `cryptography`
library (`Cipher(algorithms.AES(key), modes.CBC(iv))`).  The block operation
is abstract here: a pair of functions on 16-byte blocks.  The library
guarantees that decryption inverts encryption blockwise and that blocks stay
16 valid bytes; theorems that need those facts take them as hypotheses. -/

/-- A 16-byte block of valid bytes. -/
def IsBlock (b : List Nat) : Prop := b.length = 16 ∧ BytesOk b

instance : DecidablePred IsBlock := fun b =>
  inferInstanceAs (Decidable (b.length = 16 ∧ BytesOk b))

/-- Abstract AES-256 block operation under a fixed key. -/
structure BlockCipher where
  encBlock : List Nat → List Nat
  decBlock : List Nat → List Nat

/-- Byte-wise xor of two equal-length byte strings (CBC chaining step). -/
def xorBytes (a b : List Nat) : List Nat := List.zipWith (fun x y => x ^^^ y) a b

theorem xorBytes_bytesOk : ∀ (a b : List Nat), BytesOk a → BytesOk b →
    BytesOk (xorBytes a b)
  | [], _, _, _ => by intro z hz; simp [xorBytes] at hz
  | _ :: _, [], _, _ => by intro z hz; simp [xorBytes] at hz
  | x :: a, y :: b, ha, hb => by
    intro z hz
    simp only [xorBytes, List.zipWith_cons_cons, List.mem_cons] at hz
    rcases hz with hz | hz
    · subst hz
      have h1 : x < 2 ^ 8 := by simpa using ha x (by simp)
      have h2 : y < 2 ^ 8 := by simpa using hb y (by simp)
      have := Nat.xor_lt_two_pow h1 h2
      simpa using this
    · exact xorBytes_bytesOk a b (fun w hw => ha w (by simp [hw]))
        (fun w hw => hb w (by simp [hw])) z hz

theorem xorBytes_isBlock {a b : List Nat} (ha : IsBlock a) (hb : IsBlock b) :
    IsBlock (xorBytes a b) := by
  refine ⟨?_, xorBytes_bytesOk a b ha.2 hb.2⟩
  simp [xorBytes, ha.1, hb.1]

theorem xorBytes_cancel : ∀ (a b : List Nat), a.length = b.length →
    xorBytes a (xorBytes a b) = b
  | [], [], _ => rfl
  | [], _ :: _, h => by simp at h
  | _ :: _, [], h => by simp at h
  | x :: a, y :: b, h => by
    simp only [xorBytes, List.zipWith_cons_cons]
    have hx : x ^^^ (x ^^^ y) = y := by
      rw [← Nat.xor_assoc, Nat.xor_self, Nat.zero_xor]
    rw [hx]
    have := xorBytes_cancel a b (by simpa using h)
    simpa [xorBytes] using this

/-- Splits a byte string into 16-byte chunks; the `fuel` argument makes the
recursion structural (`fuel := xs.length` always suffices). -/
def chunkAux : Nat → List Nat → List (List Nat)
  | 0, _ => []
  | _, [] => []
  | fuel + 1, xs => xs.take 16 :: chunkAux fuel (xs.drop 16)

/-- 16-byte chunking of a byte string. -/
def chunk16 (xs : List Nat) : List (List Nat) := chunkAux xs.length xs

theorem chunkAux_flatten : ∀ (fuel : Nat) (xs : List Nat), xs.length ≤ fuel →
    (chunkAux fuel xs).flatten = xs
  | 0, xs, h => by
    have : xs = [] := List.eq_nil_of_length_eq_zero (Nat.le_zero.mp h)
    simp [this, chunkAux]
  | fuel + 1, [], _ => by simp [chunkAux]
  | fuel + 1, x :: xs, h => by
    show (List.take 16 (x :: xs) :: chunkAux fuel (List.drop 16 (x :: xs))).flatten = x :: xs
    rw [List.flatten_cons,
      chunkAux_flatten fuel (List.drop 16 (x :: xs)) (by simp at h ⊢; omega)]
    exact List.take_append_drop 16 (x :: xs)

theorem chunk16_flatten (xs : List Nat) : (chunk16 xs).flatten = xs :=
  chunkAux_flatten xs.length xs le_rfl

theorem chunkAux_isBlock : ∀ (fuel : Nat) (xs : List Nat), 16 ∣ xs.length →
    BytesOk xs → ∀ b ∈ chunkAux fuel xs, IsBlock b
  | 0, _, _, _ => by simp [chunkAux]
  | fuel + 1, [], _, _ => by simp [chunkAux]
  | fuel + 1, x :: xs, hdvd, hok => by
    intro b hb
    have hlen : 16 ≤ (x :: xs).length := by
      rcases hdvd with ⟨k, hk⟩
      match k, hk with
      | 0, hk => simp at hk
      | k + 1, hk => rw [hk]; omega
    replace hb : b ∈ List.take 16 (x :: xs) :: chunkAux fuel (List.drop 16 (x :: xs)) := hb
    rcases List.mem_cons.mp hb with hb | hb
    · subst hb
      constructor
      · rw [List.length_take]; omega
      · intro y hy
        exact hok y (List.mem_of_mem_take hy)
    · have hd : 16 ∣ (List.drop 16 (x :: xs)).length := by
        rcases hdvd with ⟨k, hk⟩
        refine ⟨k - 1, ?_⟩
        rw [List.length_drop]
        omega
      have hokd : BytesOk (List.drop 16 (x :: xs)) := fun y hy =>
        hok y (List.mem_of_mem_drop hy)
      exact chunkAux_isBlock fuel _ hd hokd b hb

theorem chunkAux_of_blocks : ∀ (blocks : List (List Nat)) (fuel : Nat),
    (∀ b ∈ blocks, b.length = 16) → blocks.length ≤ fuel →
    chunkAux fuel blocks.flatten = blocks
  | [], fuel, _, _ => by
    cases fuel <;> simp [chunkAux]
  | b :: blocks, 0, _, h => by simp at h
  | b :: blocks, fuel + 1, hlen, h => by
    have hb : b.length = 16 := hlen b (List.mem_cons_self b blocks)
    have hne : (b :: blocks).flatten ≠ [] := by
      simp [List.flatten_cons]
      intro hcontra
      rw [hcontra] at hb
      simp at hb
    rw [List.flatten_cons]
    rcases hflat : b ++ blocks.flatten with _ | ⟨y, ys⟩
    · exact absurd (by simp [List.flatten_cons, hflat]) hne
    · show List.take 16 (y :: ys) :: chunkAux fuel (List.drop 16 (y :: ys)) = b :: blocks
      rw [← hflat]
      have htake : List.take 16 (b ++ blocks.flatten) = b := by
        rw [← hb]; exact List.take_left b blocks.flatten
      have hdrop : List.drop 16 (b ++ blocks.flatten) = blocks.flatten := by
        rw [← hb]; exact List.drop_left b blocks.flatten
      rw [htake, hdrop,
        chunkAux_of_blocks blocks fuel
          (fun c hc => hlen c (List.mem_cons_of_mem b hc)) (by simp at h; omega)]

/-- CBC encryption of a list of plaintext blocks with chaining value `prev`
(the IV for the first block), as performed by the `cryptography` library. -/
def cbcEnc (C : BlockCipher) (prev : List Nat) : List (List Nat) → List (List Nat)
  | [] => []
  | b :: rest =>
    let c := C.encBlock (xorBytes prev b)
    c :: cbcEnc C c rest

/-- CBC decryption of a list of ciphertext blocks with chaining value `prev`. -/
def cbcDec (C : BlockCipher) (prev : List Nat) : List (List Nat) → List (List Nat)
  | [] => []
  | c :: rest => xorBytes prev (C.decBlock c) :: cbcDec C c rest

theorem cbcDec_cbcEnc (C : BlockCipher)
    (henc : ∀ b, IsBlock b → IsBlock (C.encBlock b))
    (hdec : ∀ b, IsBlock b → C.decBlock (C.encBlock b) = b) :
    ∀ (blocks : List (List Nat)) (prev : List Nat), IsBlock prev →
    (∀ b ∈ blocks, IsBlock b) → cbcDec C prev (cbcEnc C prev blocks) = blocks
  | [], _, _, _ => rfl
  | b :: rest, prev, hprev, hblocks => by
    have hb : IsBlock b := hblocks b (List.mem_cons_self b rest)
    have hxor : IsBlock (xorBytes prev b) := xorBytes_isBlock hprev hb
    simp only [cbcEnc, cbcDec]
    rw [hdec _ hxor, xorBytes_cancel prev b (hprev.1.trans hb.1.symm)]
    rw [cbcDec_cbcEnc C henc hdec rest (C.encBlock (xorBytes prev b))
      (henc _ hxor) (fun c hc => hblocks c (List.mem_cons_of_mem b hc))]

/-! ## PKCS7 padding (`EncryptionService._pad` / `_unpad`) -/

/-- `EncryptionService._pad`: appends `16 - len % 16` copies of that value. -/
def pkcs7Pad (data : List Nat) : List Nat :=
  let padding_length := 16 - data.length % 16
  data ++ List.replicate padding_length padding_length

/-- Python negative indexing `data[-k]` (for `k ≥ 1`); `none` models the
`IndexError` raised when `k` exceeds the length. -/
def pyNegGet? (data : List Nat) (k : Nat) : Option Nat :=
  if k ≤ data.length then data[data.length - k]? else none

/-- The verification loop of `_unpad` (`for i in range(padding_length)`),
checking `data[-(i + 1)] == padding_length`; structural in the `fuel`
argument (`fuel := n - i` suffices). -/
def padCheckLoop (data : List Nat) (n : Nat) : Nat → Nat → Except Err Unit
  | 0, _ => .ok ()
  | fuel + 1, i =>
    if i < n then
      match pyNegGet? data (i + 1) with
      | none => .error .indexError
      | some v =>
        if v = n then padCheckLoop data n fuel (i + 1)
        else .error (.valueError "Invalid padding bytes")
    else .ok ()

/-- `EncryptionService._unpad`: validates and strips PKCS7 padding.
`data.getLastD 0` is Python `data[-1]`; the default is never read because the
empty case is rejected first. -/
def pkcs7Unpad (data : List Nat) : Except Err (List Nat) :=
  if data.length = 0 then .error (.valueError "Cannot unpad empty data")
  else if 16 < data.getLastD 0 ∨ data.getLastD 0 = 0 then
    .error (.valueError "Invalid padding length")
  else
    match padCheckLoop data (data.getLastD 0) (data.getLastD 0) 0 with
    | .error e => .error e
    | .ok _ => .ok (data.take (data.length - data.getLastD 0))

theorem padCheckLoop_ok (data : List Nat) (n : Nat) :
    ∀ (fuel i : Nat), n - i ≤ fuel →
    (∀ j, i ≤ j → j < n → pyNegGet? data (j + 1) = some n) →
    padCheckLoop data n fuel i = .ok ()
  | 0, i, _, _ => rfl
  | fuel + 1, i, hfuel, hall => by
    unfold padCheckLoop
    split
    · next hi =>
      rw [hall i le_rfl hi]
      simp only [if_pos rfl]
      exact padCheckLoop_ok data n fuel (i + 1) (by omega)
        (fun j hj hjn => hall j (by omega) hjn)
    · rfl

theorem padCheckLoop_bad (data : List Nat) (n : Nat) :
    ∀ (fuel i : Nat), n - i ≤ fuel →
    (∀ j, i ≤ j → j < n → ∃ v, pyNegGet? data (j + 1) = some v) →
    (∃ j, i ≤ j ∧ j < n ∧ pyNegGet? data (j + 1) ≠ some n) →
    padCheckLoop data n fuel i = .error (.valueError "Invalid padding bytes")
  | 0, i, hfuel, _, hbad => by
    obtain ⟨j, hij, hjn, _⟩ := hbad
    omega
  | fuel + 1, i, hfuel, hsome, hbad => by
    have hin : i < n := by
      obtain ⟨j, hij, hjn, _⟩ := hbad
      omega
    unfold padCheckLoop
    rw [if_pos hin]
    obtain ⟨v, hv⟩ := hsome i le_rfl hin
    rw [hv]
    by_cases hvn : v = n
    · show (if v = n then padCheckLoop data n fuel (i + 1)
        else Except.error (Err.valueError "Invalid padding bytes")) =
        Except.error (Err.valueError "Invalid padding bytes")
      rw [if_pos hvn]
      rw [hvn] at hv
      refine padCheckLoop_bad data n fuel (i + 1) (by omega)
        (fun j hj hjn => hsome j (by omega) hjn) ?_
      obtain ⟨j, hij, hjn, hne⟩ := hbad
      refine ⟨j, ?_, hjn, hne⟩
      rcases Nat.eq_or_lt_of_le hij with h | h
      · subst h
        exact absurd hv hne
      · omega
    · simp [hvn]

theorem pad_pyNegGet (data : List Nat) (n j : Nat) (_h1 : 1 ≤ n) (hj : j < n) :
    pyNegGet? (data ++ List.replicate n n) (j + 1) = some n := by
  unfold pyNegGet?
  rw [List.length_append, List.length_replicate, if_pos (by omega)]
  rw [List.getElem?_append_right (by omega)]
  rw [List.getElem?_replicate]
  rw [if_pos (by omega)]

theorem pkcs7Unpad_pad (data : List Nat) : pkcs7Unpad (pkcs7Pad data) = .ok data := by
  have hmod := Nat.mod_lt data.length (show 0 < 16 by norm_num)
  generalize hn : 16 - data.length % 16 = n at *
  have hn1 : 1 ≤ n := by omega
  have hn16 : n ≤ 16 := by omega
  have hpad : pkcs7Pad data = data ++ List.replicate n n := by
    unfold pkcs7Pad
    rw [hn]
  have hlast : (data ++ List.replicate n n).getLastD 0 = n := by
    rw [List.getLastD_eq_getLast?, List.getLast?_append, List.getLast?_replicate,
      if_neg (by omega)]
    rfl
  have hlen : (data ++ List.replicate n n).length = data.length + n := by simp
  unfold pkcs7Unpad
  rw [hpad, hlast, hlen]
  rw [if_neg (by omega), if_neg (by omega)]
  rw [padCheckLoop_ok (data ++ List.replicate n n) n n 0 (by omega)
    (fun j _ hj => pad_pyNegGet data n j hn1 hj)]
  show Except.ok (List.take (data.length + n - n) (data ++ List.replicate n n)) =
    Except.ok data
  have hsub : data.length + n - n = data.length := by omega
  rw [hsub, List.take_left]

theorem cbcEnc_isBlock (C : BlockCipher)
    (henc : ∀ b, IsBlock b → IsBlock (C.encBlock b)) :
    ∀ (blocks : List (List Nat)) (prev : List Nat), IsBlock prev →
    (∀ b ∈ blocks, IsBlock b) → ∀ c ∈ cbcEnc C prev blocks, IsBlock c
  | [], _, _, _ => by simp [cbcEnc]
  | b :: rest, prev, hprev, hblocks => by
    intro c hc
    have hb : IsBlock b := hblocks b (List.mem_cons_self b rest)
    have hxor : IsBlock (C.encBlock (xorBytes prev b)) :=
      henc _ (xorBytes_isBlock hprev hb)
    simp only [cbcEnc] at hc
    rcases List.mem_cons.mp hc with hc | hc
    · rw [hc]; exact hxor
    · exact cbcEnc_isBlock C henc rest (C.encBlock (xorBytes prev b)) hxor
        (fun d hd => hblocks d (List.mem_cons_of_mem b hd)) c hc

theorem cbcDec_length (C : BlockCipher) : ∀ (blocks : List (List Nat)) (prev : List Nat),
    (cbcDec C prev blocks).length = blocks.length
  | [], _ => rfl
  | c :: rest, prev => by
    simp [cbcDec, cbcDec_length C rest c]

theorem cbcDec_isBlock (C : BlockCipher)
    (hdecB : ∀ b, IsBlock b → IsBlock (C.decBlock b)) :
    ∀ (blocks : List (List Nat)) (prev : List Nat), IsBlock prev →
    (∀ b ∈ blocks, IsBlock b) → ∀ d ∈ cbcDec C prev blocks, IsBlock d
  | [], _, _, _ => by simp [cbcDec]
  | c :: rest, prev, hprev, hblocks => by
    intro d hd
    have hc : IsBlock c := hblocks c (List.mem_cons_self c rest)
    simp only [cbcDec] at hd
    rcases List.mem_cons.mp hd with hd | hd
    · rw [hd]
      exact xorBytes_isBlock hprev (hdecB c hc)
    · exact cbcDec_isBlock C hdecB rest c hc
        (fun b hb => hblocks b (List.mem_cons_of_mem c hb)) d hd

theorem chunk16_length_pos (x : Nat) (xs : List Nat) :
    1 ≤ (chunk16 (x :: xs)).length := by
  show 1 ≤ (chunkAux (xs.length + 1) (x :: xs)).length
  rw [show chunkAux (xs.length + 1) (x :: xs)
      = (x :: xs).take 16 :: chunkAux xs.length ((x :: xs).drop 16) from rfl]
  simp

/-! ## `EncryptionService.encrypt_token` / `decrypt_token`

The plaintext argument is the UTF-8 byte sequence of the Python string
(`token.encode()` / `.decode()` are the identity at this level). -/

/-- `EncryptionService.encrypt_token`: hex-decode and validate the IV, PKCS7
pad, CBC-encrypt, hex-encode. -/
def encrypt_token (C : BlockCipher) (token : List Nat) (iv : List Char) :
    Except Err (List Char) :=
  match hexToBytes? iv with
  | none => .error (.valueError "IV must be valid hex string")
  | some iv_bytes =>
    if iv_bytes.length ≠ 16 then
      .error (.valueError "IV must be 16 bytes (32 hex characters)")
    else
      .ok (bytesToHex (cbcEnc C iv_bytes (chunk16 (pkcs7Pad token))).flatten)

/-- `EncryptionService.decrypt_token`: hex-decode IV and ciphertext, validate
the IV length, CBC-decrypt, strip PKCS7 padding.  The length-multiple check
is performed by the cryptography library CBC finalizer; its `ValueError`
message is used for that branch. -/
def decrypt_token (C : BlockCipher) (encrypted_token : List Char) (iv : List Char) :
    Except Err (List Nat) :=
  match hexToBytes? iv, hexToBytes? encrypted_token with
  | some iv_bytes, some encrypted_bytes =>
    if iv_bytes.length ≠ 16 then
      .error (.valueError "IV must be 16 bytes (32 hex characters)")
    else if encrypted_bytes.length % 16 ≠ 0 then
      .error (.valueError "The length of the provided data is not a multiple of the block length")
    else
      pkcs7Unpad (cbcDec C iv_bytes (chunk16 encrypted_bytes)).flatten
  | _, _ => .error (.valueError "Encrypted token and IV must be valid hex strings")

theorem pkcs7Pad_length (token : List Nat) :
    (pkcs7Pad token).length = token.length + (16 - token.length % 16) := by
  simp [pkcs7Pad]

theorem pkcs7Pad_dvd (token : List Nat) : 16 ∣ (pkcs7Pad token).length := by
  rw [pkcs7Pad_length]
  omega

theorem pkcs7Pad_bytesOk (token : List Nat) (h : BytesOk token) :
    BytesOk (pkcs7Pad token) := by
  intro x hx
  rw [pkcs7Pad, List.mem_append] at hx
  rcases hx with hx | hx
  · exact h x hx
  · have := List.eq_of_mem_replicate hx
    omega

theorem encrypt_token_eq (C : BlockCipher) (token : List Nat) (iv : List Char)
    (iv_bytes : List Nat) (hiv : hexToBytes? iv = some iv_bytes)
    (hivlen : iv_bytes.length = 16) :
    encrypt_token C token iv =
      .ok (bytesToHex (cbcEnc C iv_bytes (chunk16 (pkcs7Pad token))).flatten) := by
  unfold encrypt_token
  rw [hiv]
  show (if iv_bytes.length ≠ 16 then
      Except.error (Err.valueError "IV must be 16 bytes (32 hex characters)")
    else Except.ok (bytesToHex (cbcEnc C iv_bytes (chunk16 (pkcs7Pad token))).flatten)) = _
  rw [if_neg (by omega)]

theorem decrypt_token_eq (C : BlockCipher) (ct iv : List Char)
    (iv_bytes enc_bytes : List Nat)
    (hiv : hexToBytes? iv = some iv_bytes) (hivlen : iv_bytes.length = 16)
    (hct : hexToBytes? ct = some enc_bytes) (hlen : enc_bytes.length % 16 = 0) :
    decrypt_token C ct iv = pkcs7Unpad (cbcDec C iv_bytes (chunk16 enc_bytes)).flatten := by
  unfold decrypt_token
  rw [hiv, hct]
  show (if iv_bytes.length ≠ 16 then
      Except.error (Err.valueError "IV must be 16 bytes (32 hex characters)")
    else if enc_bytes.length % 16 ≠ 0 then
      Except.error
        (Err.valueError "The length of the provided data is not a multiple of the block length")
    else pkcs7Unpad (cbcDec C iv_bytes (chunk16 enc_bytes)).flatten) = _
  rw [if_neg (by omega), if_neg (by omega)]

theorem pyNegGet_some (data : List Nat) (k : Nat) (_h1 : 1 ≤ k) (h2 : k ≤ data.length)
    (_h3 : data.length ≠ 0) : ∃ v, pyNegGet? data k = some v := by
  unfold pyNegGet?
  rw [if_pos h2]
  have hidx : data.length - k < data.length := by omega
  exact ⟨_, List.getElem?_eq_getElem hidx⟩

theorem pkcs7Unpad_bad (data : List Nat) (n : Nat)
    (hlast : data.getLastD 0 = n) (hne : data.length ≠ 0)
    (hbad : n = 0 ∨ 16 < n ∨
      (n ≤ data.length ∧ ∃ j, j < n ∧ pyNegGet? data (j + 1) ≠ some n)) :
    pkcs7Unpad data = .error (.valueError "Invalid padding length") ∨
    pkcs7Unpad data = .error (.valueError "Invalid padding bytes") := by
  unfold pkcs7Unpad
  rw [if_neg hne, hlast]
  by_cases hcase : 16 < n ∨ n = 0
  · left
    rw [if_pos hcase]
  · right
    rw [if_neg hcase]
    push_neg at hcase
    obtain ⟨hnlen, j, hj, hjne⟩ :
        n ≤ data.length ∧ ∃ j, j < n ∧ pyNegGet? data (j + 1) ≠ some n := by
      rcases hbad with h | h | h
      · exact absurd h hcase.2
      · exact absurd h (by omega)
      · exact h
    rw [padCheckLoop_bad data n n 0 (by omega)
      (fun j _ hjn => pyNegGet_some data (j + 1) (by omega) (by omega) hne)
      ⟨j, by omega, hj, hjne⟩]

/-! ## Claims C1 and C6 -/

/-- C1: for every plaintext byte string and every IV that hex-decodes to 16
bytes, decrypting the encryption of the plaintext under the same key and IV
returns the plaintext exactly (the block-cipher hypotheses are the AES
contract of the cryptography library: blockwise inverse, 16 valid bytes out).
The empty, 1-byte and multi-block cases are instances of the universally
quantified plaintext. -/
theorem encrypt_decrypt_roundtrip (C : BlockCipher)
    (henc : ∀ b, IsBlock b → IsBlock (C.encBlock b))
    (hdec : ∀ b, IsBlock b → C.decBlock (C.encBlock b) = b)
    (token : List Nat) (htoken : BytesOk token)
    (iv : List Char) (iv_bytes : List Nat)
    (hiv : hexToBytes? iv = some iv_bytes) (hivlen : iv_bytes.length = 16) :
    ∃ ct, encrypt_token C token iv = .ok ct ∧ decrypt_token C ct iv = .ok token := by
  have hivok : BytesOk iv_bytes := hexToBytes_bytesOk iv iv_bytes hiv
  have hivblock : IsBlock iv_bytes := ⟨hivlen, hivok⟩
  have hpdvd : 16 ∣ (pkcs7Pad token).length := pkcs7Pad_dvd token
  have hpok : BytesOk (pkcs7Pad token) := pkcs7Pad_bytesOk token htoken
  have hblocksIsB : ∀ b ∈ chunk16 (pkcs7Pad token), IsBlock b :=
    chunkAux_isBlock (pkcs7Pad token).length (pkcs7Pad token) hpdvd hpok
  have hcIsB : ∀ c ∈ cbcEnc C iv_bytes (chunk16 (pkcs7Pad token)), IsBlock c :=
    cbcEnc_isBlock C henc (chunk16 (pkcs7Pad token)) iv_bytes hivblock hblocksIsB
  have hclen16 : ∀ c ∈ cbcEnc C iv_bytes (chunk16 (pkcs7Pad token)), c.length = 16 :=
    fun c hc => (hcIsB c hc).1
  have hcflatok : BytesOk (cbcEnc C iv_bytes (chunk16 (pkcs7Pad token))).flatten :=
    flatten_bytesOk _ (fun c hc => (hcIsB c hc).2)
  refine ⟨bytesToHex (cbcEnc C iv_bytes (chunk16 (pkcs7Pad token))).flatten,
    encrypt_token_eq C token iv iv_bytes hiv hivlen, ?_⟩
  have hhex : hexToBytes? (bytesToHex (cbcEnc C iv_bytes (chunk16 (pkcs7Pad token))).flatten)
      = some (cbcEnc C iv_bytes (chunk16 (pkcs7Pad token))).flatten :=
    hexToBytes_bytesToHex _ hcflatok
  have hflatlen : (cbcEnc C iv_bytes (chunk16 (pkcs7Pad token))).flatten.length
      = 16 * (cbcEnc C iv_bytes (chunk16 (pkcs7Pad token))).length :=
    flatten_length_of_blocks _ hclen16
  rw [decrypt_token_eq C _ iv iv_bytes _ hiv hivlen hhex (by rw [hflatlen]; omega)]
  have hchunk : chunk16 (cbcEnc C iv_bytes (chunk16 (pkcs7Pad token))).flatten
      = cbcEnc C iv_bytes (chunk16 (pkcs7Pad token)) := by
    rw [chunk16]
    exact chunkAux_of_blocks _ _ hclen16 (by rw [hflatlen]; omega)
  rw [hchunk, cbcDec_cbcEnc C henc hdec _ iv_bytes hivblock hblocksIsB, chunk16_flatten]
  exact pkcs7Unpad_pad token

/-- The identity block cipher: a concrete instance of the block-cipher
contract used by witnesses. -/
def idCipher : BlockCipher := ⟨fun b => b, fun b => b⟩

/-- A 32-character hex string of zeros (a valid 16-byte IV). -/
def zeroIvHex : List Char := List.replicate 32 '0'

/-- Witness for C1: the round trip evaluated at the empty string, a 1-byte
input and a 32-byte (two-block) input. -/
theorem encrypt_decrypt_roundtrip_witness :
    (∃ ct, encrypt_token idCipher [] zeroIvHex = .ok ct ∧
      decrypt_token idCipher ct zeroIvHex = .ok []) ∧
    (∃ ct, encrypt_token idCipher [104] zeroIvHex = .ok ct ∧
      decrypt_token idCipher ct zeroIvHex = .ok [104]) ∧
    (∃ ct, encrypt_token idCipher (List.replicate 32 97) zeroIvHex = .ok ct ∧
      decrypt_token idCipher ct zeroIvHex = .ok (List.replicate 32 97)) :=
  ⟨encrypt_decrypt_roundtrip idCipher (fun _ h => h) (fun _ _ => rfl) []
      (by decide) zeroIvHex (List.replicate 16 0) (by decide) (by decide),
    encrypt_decrypt_roundtrip idCipher (fun _ h => h) (fun _ _ => rfl) [104]
      (by decide) zeroIvHex (List.replicate 16 0) (by decide) (by decide),
    encrypt_decrypt_roundtrip idCipher (fun _ h => h) (fun _ _ => rfl)
      (List.replicate 32 97) (by decide) zeroIvHex (List.replicate 16 0)
      (by decide) (by decide)⟩

/-- C6: if the CBC-decrypted bytes of a well-formed nonempty ciphertext end
in a byte that is 0 or greater than 16, or their trailing bytes are not
uniformly equal to that declared padding length, then `decrypt_token` fails
with one of the two invalid-padding `ValueError`s and never returns
plaintext.  The block-cipher hypothesis is the AES contract (decryption
yields 16 valid bytes per block); nonemptiness and the index bounds of the
padding check are derived, not assumed. -/
theorem decrypt_rejects_invalid_padding (C : BlockCipher)
    (hdecB : ∀ b, IsBlock b → IsBlock (C.decBlock b))
    (ct iv : List Char) (iv_bytes enc_bytes : List Nat)
    (hiv : hexToBytes? iv = some iv_bytes) (hivlen : iv_bytes.length = 16)
    (hct : hexToBytes? ct = some enc_bytes) (hlen : enc_bytes.length % 16 = 0)
    (hctne : enc_bytes ≠ [])
    (n : Nat) (dec : List Nat)
    (hdecdef : dec = (cbcDec C iv_bytes (chunk16 enc_bytes)).flatten)
    (hlast : dec.getLastD 0 = n)
    (hbad : n = 0 ∨ 16 < n ∨ ∃ j, j < n ∧ pyNegGet? dec (j + 1) ≠ some n) :
    decrypt_token C ct iv = .error (.valueError "Invalid padding length") ∨
    decrypt_token C ct iv = .error (.valueError "Invalid padding bytes") := by
  have hebytes : BytesOk enc_bytes := hexToBytes_bytesOk ct enc_bytes hct
  have hivblock : IsBlock iv_bytes := ⟨hivlen, hexToBytes_bytesOk iv iv_bytes hiv⟩
  have hblocks : ∀ b ∈ chunk16 enc_bytes, IsBlock b :=
    chunkAux_isBlock enc_bytes.length enc_bytes (Nat.dvd_of_mod_eq_zero hlen) hebytes
  have hdblocks : ∀ d ∈ cbcDec C iv_bytes (chunk16 enc_bytes), IsBlock d :=
    cbcDec_isBlock C hdecB (chunk16 enc_bytes) iv_bytes hivblock hblocks
  have hdlen : dec.length = 16 * (cbcDec C iv_bytes (chunk16 enc_bytes)).length := by
    rw [hdecdef]
    exact flatten_length_of_blocks _ (fun d hd => (hdblocks d hd).1)
  have hnb : 1 ≤ (cbcDec C iv_bytes (chunk16 enc_bytes)).length := by
    rw [cbcDec_length]
    rcases enc_bytes with _ | ⟨x, xs⟩
    · exact absurd rfl hctne
    · exact chunk16_length_pos x xs
  have hne : dec.length ≠ 0 := by omega
  rw [decrypt_token_eq C ct iv iv_bytes enc_bytes hiv hivlen hct hlen, ← hdecdef]
  apply pkcs7Unpad_bad dec n hlast hne
  rcases hbad with h | h | ⟨j, hj, hjne⟩
  · exact Or.inl h
  · exact Or.inr (Or.inl h)
  · by_cases h16 : 16 < n
    · exact Or.inr (Or.inl h16)
    · exact Or.inr (Or.inr ⟨by omega, j, hj, hjne⟩)

/-- A one-block ciphertext whose decrypted last byte is 200 (above 16). -/
def ctLen200 : List Char := bytesToHex (List.replicate 15 0 ++ [200])

/-- A one-block ciphertext whose decrypted last byte is 3 but whose trailing
bytes are not uniformly 3. -/
def ctBadBytes : List Char := bytesToHex (List.replicate 13 0 ++ [9, 9, 3])

/-- Witness for C6: one-block ciphertexts decrypting to a last byte of 0, of
200 (above 16), and of 3 with non-uniform trailing bytes are all rejected
with an invalid-padding error. -/
theorem decrypt_rejects_invalid_padding_witness :
    (decrypt_token idCipher zeroIvHex zeroIvHex =
        .error (.valueError "Invalid padding length") ∨
      decrypt_token idCipher zeroIvHex zeroIvHex =
        .error (.valueError "Invalid padding bytes")) ∧
    (decrypt_token idCipher ctLen200 zeroIvHex =
        .error (.valueError "Invalid padding length") ∨
      decrypt_token idCipher ctLen200 zeroIvHex =
        .error (.valueError "Invalid padding bytes")) ∧
    (decrypt_token idCipher ctBadBytes zeroIvHex =
        .error (.valueError "Invalid padding length") ∨
      decrypt_token idCipher ctBadBytes zeroIvHex =
        .error (.valueError "Invalid padding bytes")) :=
  ⟨decrypt_rejects_invalid_padding idCipher (fun _ h => h) zeroIvHex zeroIvHex
      (List.replicate 16 0) (List.replicate 16 0) (by decide) (by decide)
      (by decide) (by decide) (by decide) 0 (List.replicate 16 0) (by decide)
      (by decide) (Or.inl rfl),
    decrypt_rejects_invalid_padding idCipher (fun _ h => h) ctLen200 zeroIvHex
      (List.replicate 16 0) (List.replicate 15 0 ++ [200]) (by decide) (by decide)
      (by decide) (by decide) (by decide) 200 (List.replicate 15 0 ++ [200])
      (by decide) (by decide) (Or.inr (Or.inl (by decide))),
    decrypt_rejects_invalid_padding idCipher (fun _ h => h) ctBadBytes zeroIvHex
      (List.replicate 16 0) (List.replicate 13 0 ++ [9, 9, 3]) (by decide)
      (by decide) (by decide) (by decide) (by decide) 3
      (List.replicate 13 0 ++ [9, 9, 3]) (by decide) (by decide)
      (Or.inr (Or.inr ⟨1, by decide, by decide⟩))⟩

/-! ## Vault data model (`app/db/models.py`, `app/models/domain.py`)

UUIDs are modelled as `Nat` (vault entry ids) and `String` (user ids);
`DateTime` columns are a logical clock carried by the database state.  The
`metadata` JSONB bag is an association list. -/

/-- `TokenType` of `app/db/models.py`. -/
inductive TokenType where
  | offline
  | refresh
  deriving DecidableEq, Repr

/-- JSONB metadata bag; values may be JSON `null` (`Option`). -/
def Metadata := List (String × Option String)
deriving DecidableEq, Repr

set_option linter.dupNamespace false in
/-- An `auth_vault` row / `TokenVaultEntry` domain value.  `encrypted_token`,
`iv` and `token_hash` are nullable `Text` columns holding hex strings. -/
structure AuthVault where
  id : Nat
  user_id : String
  token_type : TokenType
  encrypted_token : Option (List Char)
  iv : Option (List Char)
  token_hash : Option (List Char)
  token_metadata : Option Metadata
  session_state_id : String
  created_at : Nat
  updated_at : Option Nat
  deriving DecidableEq, Repr

/-- Database state: rows in insertion order, the id generator, and a logical
clock used for `created_at` / `updated_at` timestamps. -/
structure DB where
  rows : List AuthVault
  nextId : Nat
  clock : Nat
  deriving DecidableEq, Repr

instance {ε α : Type} [DecidableEq ε] [DecidableEq α] : DecidableEq (Except ε α) := fun a b =>
  match a, b with
  | .error e1, .error e2 => decidable_of_iff (e1 = e2) (by simp)
  | .ok v1, .ok v2 => decidable_of_iff (v1 = v2) (by simp)
  | .error _, .ok _ => isFalse (by simp)
  | .ok _, .error _ => isFalse (by simp)

/-- Python truthiness of an optional string: `None` and the empty string are
falsy (`if not entry.encrypted_token`). -/
def pyFalsy : Option (List Char) → Bool
  | none => true
  | some s => s.isEmpty

/-- SQLAlchemy `Result.scalar_one_or_none`: `none` for an empty result, the
row for a singleton result, and `MultipleResultsFound` otherwise. -/
def scalarOneOrNone (rows : List AuthVault) : Except Err (Option AuthVault) :=
  match rows with
  | [] => .ok none
  | [r] => .ok (some r)
  | _ => .error .multipleResultsFound

/-- Row filter of the `get_by_user_id` query: `user_id` equality plus the
optional `token_type` filter. -/
def matchesUser (user_id : String) (token_type : Option TokenType) (r : AuthVault) : Bool :=
  r.user_id == user_id && (match token_type with
    | none => true
    | some t => r.token_type == t)

/-- Row filter of the `get_by_session_state_id` query. -/
def matchesSession (session_state_id : String) (token_type : Option TokenType)
    (r : AuthVault) : Bool :=
  r.session_state_id == session_state_id && (match token_type with
    | none => true
    | some t => r.token_type == t)

/-- Descending `created_at` ordering used by the `order_by` clause of
`get_by_user_id`. -/
def createdDesc (a b : AuthVault) : Prop := b.created_at ≤ a.created_at

instance : DecidableRel createdDesc := fun a b => Nat.decLe b.created_at a.created_at

/-- The pydantic error message raised by `TokenVaultEntry.model_validate` on
a row loaded from the database. -/
def pydanticMetadataMsg : String :=
  "1 validation error for TokenVaultEntry: metadata - input should be a valid dictionary"

/-- `TokenVaultEntry.model_validate(entry)` on a row loaded from the
database.  The domain model declares a field `metadata` with
`from_attributes = True` (`app/models/domain.py`), but the ORM maps the
`metadata` column to the attribute `token_metadata` (`db/models.py`,
`metadata` being reserved on a declarative base), so `entry.metadata`
resolves to the class-level SQLAlchemy `MetaData` registry, which is not a
dictionary: pydantic raises `ValidationError` for every loaded row. -/
def modelValidateLoaded (_entry : AuthVault) : Except Err AuthVault :=
  .error (.pydanticValidationError pydanticMetadataMsg)

/-- `TokenVaultRepository.create`: inserts a brand-new row; the id is
generated at creation and `created_at` is the current clock.  The
`AuthVault(..., metadata=...)` keyword sets an unmapped instance attribute
(the mapped attribute is `token_metadata`), so the persisted `metadata`
column stays NULL; `TokenVaultEntry.model_validate` on this just-created
object reads that shadowing instance attribute and succeeds, returning a
domain value that does carry the metadata bag. -/
def repoCreate (db : DB) (user_id : String) (token_type : TokenType)
    (encrypted_token iv token_hash : List Char) (session_state_id : String)
    (metadata : Option Metadata) : AuthVault × DB :=
  let row : AuthVault :=
    { id := db.nextId
      user_id := user_id
      token_type := token_type
      encrypted_token := some encrypted_token
      iv := some iv
      token_hash := some token_hash
      token_metadata := none
      session_state_id := session_state_id
      created_at := db.clock
      updated_at := none }
  ({ row with token_metadata := metadata },
    { rows := db.rows ++ [row], nextId := db.nextId + 1, clock := db.clock + 1 })

/-- `TokenVaultRepository.get_by_id`: `select ... where id == token_id`,
`scalar_one_or_none`, then `TokenVaultEntry.model_validate(entry) if entry
else None` — the conversion raises for every loaded row. -/
def repoGetById (db : DB) (token_id : Nat) : Except Err (Option AuthVault) :=
  match scalarOneOrNone (db.rows.filter (fun r => r.id = token_id)) with
  | .error e => .error e
  | .ok none => .ok none
  | .ok (some entry) =>
    match modelValidateLoaded entry with
    | .error e => .error e
    | .ok converted => .ok (some converted)

/-- `TokenVaultRepository.get_by_user_id`: filters by user (and optional
type), orders by `created_at` descending, then `scalar_one_or_none` — which
raises `MultipleResultsFound` whenever more than one row matches, before any
row conversion — then `model_validate` on a found row. -/
def repoGetByUserId (db : DB) (user_id : String) (token_type : Option TokenType) :
    Except Err (Option AuthVault) :=
  match scalarOneOrNone
      ((db.rows.filter (matchesUser user_id token_type)).insertionSort createdDesc) with
  | .error e => .error e
  | .ok none => .ok none
  | .ok (some entry) =>
    match modelValidateLoaded entry with
    | .error e => .error e
    | .ok converted => .ok (some converted)

/-- `TokenVaultRepository.get_by_session_state_id`: filters by session state
id (and optional type) with no ordering, then `scalar_one_or_none`, then
`model_validate` on a found row. -/
def repoGetBySessionStateId (db : DB) (session_state_id : String)
    (token_type : Option TokenType) : Except Err (Option AuthVault) :=
  match scalarOneOrNone (db.rows.filter (matchesSession session_state_id token_type)) with
  | .error e => .error e
  | .ok none => .ok none
  | .ok (some entry) =>
    match modelValidateLoaded entry with
    | .error e => .error e
    | .ok converted => .ok (some converted)

/-- The in-place `update ... values(...)` applied by `upsert_refresh_token`
to the row whose id matches; `updated_at` is set by the `onupdate` clock. -/
def overwriteRow (existing_id : Nat) (encrypted_token iv token_hash : List Char)
    (session_state_id : String) (metadata : Option Metadata) (clock : Nat)
    (r : AuthVault) : AuthVault :=
  if r.id = existing_id then
    { r with
      encrypted_token := some encrypted_token
      iv := some iv
      token_hash := some token_hash
      session_state_id := session_state_id
      token_metadata := metadata
      updated_at := some clock }
  else r

/-- `TokenVaultRepository.upsert_refresh_token`: looks up the existing
`refresh` row of the user; updates it in place when present (same id),
creates a new row otherwise. -/
def repoUpsertRefreshToken (db : DB) (user_id : String)
    (encrypted_token iv token_hash : List Char) (session_state_id : String)
    (metadata : Option Metadata) : Except Err (Nat × DB) :=
  match repoGetByUserId db user_id (some .refresh) with
  | .error e => .error e
  | .ok (some existing) =>
    .ok (existing.id,
      { rows := db.rows.map (overwriteRow existing.id encrypted_token iv token_hash
          session_state_id metadata db.clock)
        nextId := db.nextId
        clock := db.clock + 1 })
  | .ok none =>
    let (entry, db1) := repoCreate db user_id .refresh encrypted_token iv token_hash
      session_state_id metadata
    .ok (entry.id, db1)

/-! ## `TokenVaultService` (`app/services/token_vault.py`)

The service composes the repository with the encryption primitive.  The
`CryptoModel` carries the abstract block cipher and the SHA-256 hex digest
(`hash_token`), which these claims never inspect.  `generate_iv()` is random;
the fresh IV is an explicit argument of the operations that call it. -/

/-- The encryption service: block cipher plus `hash_token` digest. -/
structure CryptoModel where
  cipher : BlockCipher
  hashFn : List Nat → List Char

/-- `TokenVaultService.store_token`: generate IV (the `freshIv` argument),
encrypt, hash, then `repository.create` — always a brand-new row. -/
def storeToken (M : CryptoModel) (db : DB) (freshIv : List Char) (user_id : String)
    (token : List Nat) (token_type : TokenType) (session_state_id : String)
    (metadata : Option Metadata) : Except Err (AuthVault × DB) :=
  match encrypt_token M.cipher token freshIv with
  | .error e => .error e
  | .ok encrypted =>
    let (entry, db1) := repoCreate db user_id token_type encrypted freshIv
      (M.hashFn token) session_state_id metadata
    .ok (entry, db1)

/-- `TokenVaultService.retrieve_and_decrypt`: raises `TokenNotFoundError`
both when no row exists and when the row lacks a truthy ciphertext/IV pair;
decryption failures propagate as `ValueError`. -/
def retrieveAndDecrypt (M : CryptoModel) (db : DB) (token_id : Nat) :
    Except Err (AuthVault × List Nat) :=
  match repoGetById db token_id with
  | .error e => .error e
  | .ok none => .error (.tokenNotFound s!"Token {token_id} not found")
  | .ok (some entry) =>
    if pyFalsy entry.encrypted_token || pyFalsy entry.iv then
      .error (.tokenNotFound s!"Token {token_id} has no encrypted data")
    else
      match decrypt_token M.cipher (entry.encrypted_token.getD []) (entry.iv.getD []) with
      | .error e => .error e
      | .ok t => .ok (entry, t)

/-- `TokenVaultService.upsert_refresh_token`: encrypt and hash, then the
repository upsert. -/
def upsertRefreshToken (M : CryptoModel) (db : DB) (freshIv : List Char)
    (user_id : String) (token : List Nat) (session_state_id : String)
    (metadata : Option Metadata) : Except Err (Nat × DB) :=
  match encrypt_token M.cipher token freshIv with
  | .error e => .error e
  | .ok encrypted =>
    repoUpsertRefreshToken db user_id encrypted freshIv (M.hashFn token)
      session_state_id metadata

/-- `TokenVaultService.get_by_session_state`: returns `none` when no row
matches or the matching row has a falsy ciphertext/IV pair. -/
def getBySessionState (M : CryptoModel) (db : DB) (session_state_id : String)
    (token_type : Option TokenType) : Except Err (Option (AuthVault × List Nat)) :=
  match repoGetBySessionStateId db session_state_id token_type with
  | .error e => .error e
  | .ok none => .ok none
  | .ok (some entry) =>
    if pyFalsy entry.encrypted_token || pyFalsy entry.iv then .ok none
    else
      match decrypt_token M.cipher (entry.encrypted_token.getD []) (entry.iv.getD []) with
      | .error e => .error e
      | .ok t => .ok (some (entry, t))

/-- `TokenVaultService.get_by_user_id`: same shape as `get_by_session_state`
keyed by user id. -/
def getByUserId (M : CryptoModel) (db : DB) (user_id : String)
    (token_type : Option TokenType) : Except Err (Option (AuthVault × List Nat)) :=
  match repoGetByUserId db user_id token_type with
  | .error e => .error e
  | .ok none => .ok none
  | .ok (some entry) =>
    if pyFalsy entry.encrypted_token || pyFalsy entry.iv then .ok none
    else
      match decrypt_token M.cipher (entry.encrypted_token.getD []) (entry.iv.getD []) with
      | .error e => .error e
      | .ok t => .ok (some (entry, t))

/-- A concrete crypto model for witnesses: identity block cipher, trivial
digest (the digest value is never inspected by the claims). -/
def idModel : CryptoModel := ⟨idCipher, fun _ => []⟩

/-! ## Claim C2 -/

/-- A partially-initialized row: `encrypted_token` and `iv` are `None`. -/
def corruptEntry : AuthVault :=
  { id := 1
    user_id := "u1"
    token_type := .refresh
    encrypted_token := none
    iv := none
    token_hash := none
    token_metadata := none
    session_state_id := "s1"
    created_at := 0
    updated_at := none }

/-- A database holding only the partially-initialized row. -/
def corruptDb : DB := { rows := [corruptEntry], nextId := 2, clock := 1 }

/-- C2 counterexample: an entry with `encrypted_token = None` makes
`retrieve_and_decrypt` fail with the pydantic `ValidationError` raised by
the row→domain conversion — not with any `VaultCorruption` kind (none exists
in the code) and not via the missing-ciphertext check, which is never
reached; an absent id fails with `TokenNotFoundError`. -/
theorem retrieve_corrupt_counterexample :
    retrieveAndDecrypt idModel corruptDb 1 =
      .error (.pydanticValidationError pydanticMetadataMsg) ∧
    retrieveAndDecrypt idModel corruptDb 99 =
      .error (.tokenNotFound "Token 99 not found") := by
  refine ⟨by decide, by decide⟩

/-- C2 (amended): `retrieve_and_decrypt` fails with `TokenNotFoundError`
("not found") when no entry exists for the id; when an entry exists — with
or without its ciphertext/IV pair — the repository's
`TokenVaultEntry.model_validate` raises pydantic `ValidationError` before
the service's ciphertext check, so the intended "has no encrypted data"
`TokenNotFoundError` is unreachable.  The two failures thus do differ in
kind, but through the conversion error, not through any `VaultCorruption`,
and identically for readable and unreadable rows. -/
theorem retrieve_corrupt_pydantic_error (M : CryptoModel) (db : DB) (tid : Nat) :
    (db.rows.filter (fun r => r.id = tid) = [] →
      retrieveAndDecrypt M db tid = .error (.tokenNotFound s!"Token {tid} not found")) ∧
    (∀ entry, db.rows.filter (fun r => r.id = tid) = [entry] →
      retrieveAndDecrypt M db tid =
        .error (.pydanticValidationError pydanticMetadataMsg)) := by
  constructor
  · intro h
    unfold retrieveAndDecrypt repoGetById
    rw [h]
    rfl
  · intro entry h
    unfold retrieveAndDecrypt repoGetById
    rw [h]
    rfl

/-! ## Claim C3 -/

/-- The empty database. -/
def emptyDb : DB := { rows := [], nextId := 0, clock := 0 }

/-- The hex ciphertext produced for the one-byte token `[5]` under the
identity cipher and zero IV (it also decrypts back to `[5]`). -/
def validCt : List Char := bytesToHex (pkcs7Pad [5])

/-- The row persisted by `repository.create` (its `metadata` column NULL)
when `md = none`, and the domain value returned for an arbitrary `md`. -/
def freshRow (db : DB) (u : String) (tt : TokenType) (ct iv hash : List Char)
    (ssid : String) (md : Option Metadata) : AuthVault :=
  { id := db.nextId
    user_id := u
    token_type := tt
    encrypted_token := some ct
    iv := some iv
    token_hash := some hash
    token_metadata := md
    session_state_id := ssid
    created_at := db.clock
    updated_at := none }

theorem repoCreate_eq (db : DB) (u : String) (tt : TokenType)
    (ct iv hash : List Char) (ssid : String) (md : Option Metadata) :
    repoCreate db u tt ct iv hash ssid md =
      (freshRow db u tt ct iv hash ssid md,
        { rows := db.rows ++ [freshRow db u tt ct iv hash ssid none]
          nextId := db.nextId + 1
          clock := db.clock + 1 }) := rfl

theorem storeToken_eq (M : CryptoModel) (db : DB) (iv : List Char)
    (iv_bytes : List Nat) (u : String) (tok : List Nat) (tt : TokenType)
    (ssid : String) (md : Option Metadata)
    (hiv : hexToBytes? iv = some iv_bytes) (hivlen : iv_bytes.length = 16) :
    ∃ ct, encrypt_token M.cipher tok iv = .ok ct ∧
      storeToken M db iv u tok tt ssid md =
        .ok (freshRow db u tt ct iv (M.hashFn tok) ssid md,
          { rows := db.rows ++ [freshRow db u tt ct iv (M.hashFn tok) ssid none]
            nextId := db.nextId + 1
            clock := db.clock + 1 }) := by
  refine ⟨_, encrypt_token_eq M.cipher tok iv iv_bytes hiv hivlen, ?_⟩
  unfold storeToken
  rw [encrypt_token_eq M.cipher tok iv iv_bytes hiv hivlen]
  rfl

/-- The refresh row created by storing token `[5]` for user `u1` in the
empty database. -/
def storedRefreshRow : AuthVault :=
  freshRow emptyDb "u1" .refresh validCt zeroIvHex [] "s" none

/-- The database after that store. -/
def storedDb : DB := { rows := [storedRefreshRow], nextId := 1, clock := 1 }

/-- C3 (code bug): storing a refresh token for a fresh user creates the
entry, but an `upsert_refresh_token` for the same user then neither
overwrites it in place nor returns its id: the lookup of the existing
refresh row crashes inside `TokenVaultEntry.model_validate` with pydantic
`ValidationError` (the `metadata` attribute resolves to the SQLAlchemy
`MetaData` registry on loaded rows), so the update branch of the upsert is
unreachable. -/
theorem upsert_after_store_validation_error :
    storeToken idModel emptyDb zeroIvHex "u1" [5] .refresh "s" none =
      .ok (storedRefreshRow, storedDb) ∧
    upsertRefreshToken idModel storedDb zeroIvHex "u1" [6] "s2" none =
      .error (.pydanticValidationError pydanticMetadataMsg) := by
  refine ⟨by decide, by decide⟩

/-! ## Claims C7 and C10 -/

/-- A row with a proper ciphertext/IV pair. -/
def liveRow (i : Nat) (u : String) (tt : TokenType) (ssid : String)
    (created : Nat) : AuthVault :=
  { id := i
    user_id := u
    token_type := tt
    encrypted_token := some zeroIvHex
    iv := some zeroIvHex
    token_hash := some []
    token_metadata := none
    session_state_id := ssid
    created_at := created
    updated_at := none }

/-- A database with two refresh rows for the same user. -/
def twoRefreshDb : DB :=
  { rows := [liveRow 1 "u1" .refresh "s1" 0, liveRow 2 "u1" .refresh "s2" 1]
    nextId := 3
    clock := 2 }

/-- C7 (code bug): when two entries match the filters, `get_by_user_id` does
not return the most recent one — `scalar_one_or_none` raises
`MultipleResultsFound`, despite the `order_by created_at desc` clause whose
only purpose would be picking the newest row. -/
theorem get_by_user_multiple_rows_error :
    getByUserId idModel twoRefreshDb "u1" (some .refresh) =
      .error .multipleResultsFound ∧
    getByUserId idModel twoRefreshDb "u1" none = .error .multipleResultsFound := by
  constructor <;> decide

theorem repoGetByUserId_of_filter_nil (db : DB) (u : String) (tt : Option TokenType)
    (h : db.rows.filter (matchesUser u tt) = []) :
    repoGetByUserId db u tt = .ok none := by
  unfold repoGetByUserId
  rw [h]
  rfl

theorem repoGetByUserId_of_filter_single (db : DB) (u : String) (tt : Option TokenType)
    (entry : AuthVault) (h : db.rows.filter (matchesUser u tt) = [entry]) :
    repoGetByUserId db u tt = .error (.pydanticValidationError pydanticMetadataMsg) := by
  unfold repoGetByUserId
  rw [h]
  rfl

theorem repoGetBySessionStateId_of_filter_nil (db : DB) (s : String)
    (tt : Option TokenType) (h : db.rows.filter (matchesSession s tt) = []) :
    repoGetBySessionStateId db s tt = .ok none := by
  unfold repoGetBySessionStateId
  rw [h]
  rfl

theorem repoGetBySessionStateId_of_filter_single (db : DB) (s : String)
    (tt : Option TokenType) (entry : AuthVault)
    (h : db.rows.filter (matchesSession s tt) = [entry]) :
    repoGetBySessionStateId db s tt =
      .error (.pydanticValidationError pydanticMetadataMsg) := by
  unfold repoGetBySessionStateId
  rw [h]
  rfl

/-- C10 counterexample: a single matching ciphertext-less row does not make
the getters return `None` — the repository's `model_validate` raises
pydantic `ValidationError` before the service's falsy-pair check. -/
theorem get_by_corrupt_row_counterexample :
    getByUserId idModel corruptDb "u1" (some .refresh) =
      .error (.pydanticValidationError pydanticMetadataMsg) ∧
    getBySessionState idModel corruptDb "s1" none =
      .error (.pydanticValidationError pydanticMetadataMsg) := by
  refine ⟨by decide, by decide⟩

/-- C10 (amended): `get_by_user_id` and `get_by_session_state` return `None`
only when no row matches the filters; when a single row matches — with or
without its ciphertext/IV pair — the repository conversion raises pydantic
`ValidationError` before the service's falsy check runs, so an absent row
(`None`) and a ciphertext-less row (error) are distinguishable, and the
service's return-`None`-on-falsy branch is unreachable. -/
theorem get_by_filters_spec (M : CryptoModel) (db : DB) :
    (∀ u tt, db.rows.filter (matchesUser u tt) = [] →
      getByUserId M db u tt = .ok none) ∧
    (∀ u tt entry, db.rows.filter (matchesUser u tt) = [entry] →
      getByUserId M db u tt = .error (.pydanticValidationError pydanticMetadataMsg)) ∧
    (∀ s tt, db.rows.filter (matchesSession s tt) = [] →
      getBySessionState M db s tt = .ok none) ∧
    (∀ s tt entry, db.rows.filter (matchesSession s tt) = [entry] →
      getBySessionState M db s tt =
        .error (.pydanticValidationError pydanticMetadataMsg)) := by
  refine ⟨?_, ?_, ?_, ?_⟩
  · intro u tt h
    unfold getByUserId
    rw [repoGetByUserId_of_filter_nil db u tt h]
  · intro u tt entry h
    unfold getByUserId
    rw [repoGetByUserId_of_filter_single db u tt entry h]
  · intro s tt h
    unfold getBySessionState
    rw [repoGetBySessionStateId_of_filter_nil db s tt h]
  · intro s tt entry h
    unfold getBySessionState
    rw [repoGetBySessionStateId_of_filter_single db s tt entry h]

/-- Witness for C10 (amended): at the corrupt database, users/sessions with
no rows yield `None` while the single ciphertext-less row yields the
pydantic error. -/
theorem get_by_filters_spec_witness :
    getByUserId idModel corruptDb "nobody" none = .ok none ∧
    getByUserId idModel corruptDb "u1" (some .refresh) =
      .error (.pydanticValidationError pydanticMetadataMsg) ∧
    getBySessionState idModel corruptDb "nowhere" none = .ok none ∧
    getBySessionState idModel corruptDb "s1" none =
      .error (.pydanticValidationError pydanticMetadataMsg) :=
  ⟨(get_by_filters_spec idModel corruptDb).1 "nobody" none (by decide),
    (get_by_filters_spec idModel corruptDb).2.1 "u1" (some .refresh) corruptEntry
      (by decide),
    (get_by_filters_spec idModel corruptDb).2.2.1 "nowhere" none (by decide),
    (get_by_filters_spec idModel corruptDb).2.2.2 "s1" none corruptEntry
      (by decide)⟩

/-- Witness for C2 (amended), at the concrete corrupt database. -/
theorem retrieve_corrupt_pydantic_error_witness :
    retrieveAndDecrypt idModel corruptDb 99 =
      .error (.tokenNotFound "Token 99 not found") ∧
    retrieveAndDecrypt idModel corruptDb 1 =
      .error (.pydanticValidationError pydanticMetadataMsg) :=
  ⟨(retrieve_corrupt_pydantic_error idModel corruptDb 99).1 (by decide),
    (retrieve_corrupt_pydantic_error idModel corruptDb 1).2 corruptEntry (by decide)⟩

/-! ## State token codec (`app/services/state_token.py`)

The `jwt` library (PyJWT) is modelled by its documented contract: a token
carries its payload, expiry, issue time and the secret it was signed with;
`jwt.decode` verifies the signature against the given secret (raising
`InvalidTokenError` on mismatch) and, for a validly signed token, raises
`ExpiredSignatureError` when the `exp` claim lies in the past.  Absent
payload keys raise `KeyError`, which `parse_state_token` catches. -/

/-- The decoded payload dictionary: both claims may be absent. -/
structure StatePayloadRaw where
  user_id : Option String
  session_state_id : Option String
  deriving DecidableEq, Repr

/-- A signed state token (HMAC modelled by remembering the signing secret). -/
structure SToken where
  payload : StatePayloadRaw
  exp : Nat
  iat : Nat
  sig : Nat
  deriving DecidableEq, Repr

/-- `jwt.encode(payload, secret_key, algorithm="HS256")`. -/
def jwtEncode (secret : Nat) (payload : StatePayloadRaw) (exp iat : Nat) : SToken :=
  { payload := payload, exp := exp, iat := iat, sig := secret }

/-- `jwt` decode errors observed by `parse_state_token`. -/
inductive JwtErr where
  | expiredSignatureError
  | invalidTokenError (msg : String)
  deriving DecidableEq, Repr

/-- `jwt.decode(token, secret_key, algorithms=["HS256"])` at time `now`. -/
def jwtDecode (secret : Nat) (now : Nat) (t : SToken) : Except JwtErr StatePayloadRaw :=
  if t.sig ≠ secret then .error (.invalidTokenError "Signature verification failed")
  else if t.exp < now then .error .expiredSignatureError
  else .ok t.payload

/-- `StateTokenService.generate_state_token`: payload
`{user_id, session_state_id, exp := now + expires_in, iat := now}`. -/
def generate_state_token (secret : Nat) (now : Nat) (user_id session_state_id : String)
    (expires_in : Nat) : SToken :=
  jwtEncode secret { user_id := some user_id, session_state_id := some session_state_id }
    (now + expires_in) now

/-- The `StateTokenPayload` model returned on success. -/
structure StateTokenPayload where
  user_id : String
  session_state_id : String
  deriving DecidableEq, Repr

/-- `StateTokenService.parse_state_token`: every failure — expiry, bad
signature, missing claim — is re-raised as `InvalidStateTokenError`. -/
def parse_state_token (secret : Nat) (now : Nat) (t : SToken) :
    Except Err StateTokenPayload :=
  match jwtDecode secret now t with
  | .error .expiredSignatureError => .error (.invalidStateToken "State token has expired")
  | .error (.invalidTokenError m) => .error (.invalidStateToken s!"Invalid state token: {m}")
  | .ok payload =>
    match payload.user_id, payload.session_state_id with
    | some u, some s => .ok { user_id := u, session_state_id := s }
    | none, _ =>
      .error (.invalidStateToken "Missing required field in state token: user_id")
    | some _, none =>
      .error (.invalidStateToken "Missing required field in state token: session_state_id")

/-! ## Claim C4 -/

/-- A token whose expiry lies in the past (signed with secret 0). -/
def expiredToken : SToken :=
  { payload := { user_id := some "u", session_state_id := some "s" }
    exp := 5, iat := 0, sig := 0 }

/-- A token signed with a different secret. -/
def badSigToken : SToken :=
  { payload := { user_id := some "u", session_state_id := some "s" }
    exp := 2000, iat := 0, sig := 1 }

/-- A validly signed, unexpired token lacking the `user_id` claim. -/
def missingClaimToken : SToken :=
  { payload := { user_id := none, session_state_id := some "s" }
    exp := 2000, iat := 0, sig := 0 }

/-- C4 counterexample: expiry, bad signature and missing claim all fail with
the one class `InvalidStateTokenError` (kind `invalid_state_token`),
distinguished only by message — not with three distinct error kinds as the
claim states. -/
theorem parse_state_token_one_kind_counterexample :
    parse_state_token 0 1000 expiredToken =
      .error (.invalidStateToken "State token has expired") ∧
    parse_state_token 0 1000 badSigToken =
      .error (.invalidStateToken "Invalid state token: Signature verification failed") ∧
    parse_state_token 0 1000 missingClaimToken =
      .error (.invalidStateToken "Missing required field in state token: user_id") := by
  refine ⟨by decide, by decide, by decide⟩

/-- C4 (amended): `parse_state_token` distinguishes the three failure cases
only by message, raising the single kind `InvalidStateTokenError` for all of
them; a token parsed within its TTL with a valid signature and both claims
succeeds, returning the embedded `user_id` and `session_state_id` — in
particular a freshly issued token parses back to its claims while the TTL
has not elapsed. -/
theorem parse_state_token_spec (secret now : Nat) (t : SToken) :
    (t.sig ≠ secret → parse_state_token secret now t =
      .error (.invalidStateToken "Invalid state token: Signature verification failed")) ∧
    (t.sig = secret → t.exp < now → parse_state_token secret now t =
      .error (.invalidStateToken "State token has expired")) ∧
    (t.sig = secret → now ≤ t.exp → t.payload.user_id = none →
      parse_state_token secret now t =
        .error (.invalidStateToken "Missing required field in state token: user_id")) ∧
    (∀ u, t.sig = secret → now ≤ t.exp → t.payload.user_id = some u →
      t.payload.session_state_id = none →
      parse_state_token secret now t =
        .error (.invalidStateToken "Missing required field in state token: session_state_id")) ∧
    (∀ u s, t.sig = secret → now ≤ t.exp → t.payload.user_id = some u →
      t.payload.session_state_id = some s →
      parse_state_token secret now t = .ok { user_id := u, session_state_id := s }) ∧
    (∀ u s ttl now2, now2 ≤ now + ttl →
      parse_state_token secret now2 (generate_state_token secret now u s ttl) =
        .ok { user_id := u, session_state_id := s }) := by
  refine ⟨?_, ?_, ?_, ?_, ?_, ?_⟩
  · intro h
    unfold parse_state_token jwtDecode
    rw [if_pos h]
    rfl
  · intro h1 h2
    unfold parse_state_token jwtDecode
    rw [if_neg (by simp [h1]), if_pos h2]
  · intro h1 h2 hu
    unfold parse_state_token jwtDecode
    rw [if_neg (by simp [h1]), if_neg (by omega)]
    simp only [hu]
  · intro u h1 h2 hu hs
    unfold parse_state_token jwtDecode
    rw [if_neg (by simp [h1]), if_neg (by omega)]
    simp only [hu, hs]
  · intro u s h1 h2 hu hs
    unfold parse_state_token jwtDecode
    rw [if_neg (by simp [h1]), if_neg (by omega)]
    simp only [hu, hs]
  · intro u s ttl now2 h
    unfold parse_state_token jwtDecode generate_state_token jwtEncode
    rw [if_neg (by simp), if_neg (by simp; omega)]

/-- Witness for C4 (amended): issue-then-parse round trip at time 0 with TTL
600, and the expired-token case. -/
theorem parse_state_token_spec_witness :
    parse_state_token 0 0 (generate_state_token 0 0 "u" "s" 600) =
      .ok { user_id := "u", session_state_id := "s" } ∧
    parse_state_token 0 1000 expiredToken =
      .error (.invalidStateToken "State token has expired") :=
  ⟨(parse_state_token_spec 0 0 (generate_state_token 0 0 "u" "s" 600)).2.2.2.2.2
      "u" "s" 600 0 (by decide),
    (parse_state_token_spec 0 1000 expiredToken).2.1 (by decide) (by decide)⟩

/-! ## OAuth orchestrator flows (`app/api/v1/auth_manager/…`)

External provider calls are oracles: the introspection result and the token
responses are inputs of the flow functions.  Each flow threads a `FlowSt`
carrying the database and the trace of vault/provider operations, so
ordering claims ("before any vault lookup") are statable.  `UUID(user_id)`
parsing is the identity on the modelled string ids. -/

/-- `TokenIntrospection` (`app/models/domain.py`): the fields the flows read. -/
structure TokenIntrospection where
  active : Bool
  sub : Option String
  session_state : Option String
  deriving DecidableEq, Repr

/-- `KeycloakTokenResponse` (`app/models/domain.py`): the fields the flows
read; the refresh token is the byte string destined for the vault. -/
structure KeycloakTokenResponse where
  access_token : String
  refresh_token : Option (List Nat)
  session_state : String
  scope : Option String
  token_type : String
  deriving DecidableEq, Repr

/-- Externally observable steps of a flow. -/
inductive Event where
  | introspectCall
  | vaultGetByUser
  | vaultGetBySession
  | providerRefresh
  | providerOfflineRequest
  | providerExchangeCode
  | vaultStore
  deriving DecidableEq, Repr

/-- Flow state: the database and the executed-step trace. -/
structure FlowSt where
  db : DB
  events : List Event
  deriving DecidableEq, Repr

/-- Appends one executed step to the trace. -/
def logEvent (st : FlowSt) (e : Event) : FlowSt := { st with events := st.events ++ [e] }

/-- `guard_condition(condition, error_message, error_code)` of
`app/core/guards.py`: raises the base `AuthManagerError` with the given
code when the condition is false. -/
def guard_condition (condition : Bool) (error_message : String) (error_code : String) :
    Except Err Unit :=
  if condition then .ok () else .error (.authManagerError error_code error_message)

/-- `guard_not_none(value, error_message)` of `app/core/guards.py`: raises
`ValidationError` when the value is `None`. -/
def guard_not_none {α : Type} (value : Option α) (error_message : String) : Except Err α :=
  match value with
  | none => .error (.validationError error_message)
  | some v => .ok v

/-- `guards.py` defines `guard_not_none` with exactly two parameters, but
three call sites (`refresh_token_id.py` line 166, `offline_token.py` line
293, `offline_token_id.py` line 155) pass a third positional argument
(an error code), so CPython raises `TypeError` at the call site, before the
guard can inspect the value. -/
def guard_not_none_call3 {α : Type} (_value : Option α)
    (_error_message _error_code : String) : Except Err α :=
  .error (.typeError "guard_not_none() takes 2 positional arguments but 3 were given")

/-- `make_new_refresh_token_id` (`refresh_token_id.py`): the Refresh-Rotation
flow.  It introspects, guards only the `sub` claim (no `active` check, no
`session_state` guard), looks up the refresh entry by user, calls the
provider refresh grant, and then hits the three-argument `guard_not_none`
call. -/
def make_new_refresh_token_id (M : CryptoModel) (st : FlowSt) (freshIv : List Char)
    (introspection : Except Err TokenIntrospection)
    (refreshResp : Except Err KeycloakTokenResponse) : Except Err Nat × FlowSt :=
  let st := logEvent st .introspectCall
  match introspection with
  | .error e => (.error e, st)
  | .ok token_info =>
    match guard_not_none token_info.sub "Token missing required claim: sub" with
    | .error e => (.error e, st)
    | .ok user_id =>
      let st := logEvent st .vaultGetByUser
      match getByUserId M st.db user_id (some .refresh) with
      | .error e => (.error e, st)
      | .ok none => (.error (.invalidRequest "No session nor was found"), st)
      | .ok (some (entry, _decrypted_token)) =>
        if pyFalsy entry.encrypted_token || pyFalsy entry.iv then
          (.error (.tokenNotFound "No active refresh token was found"), st)
        else
          let st := logEvent st .providerRefresh
          match refreshResp with
          | .error e => (.error e, st)
          | .ok new_token_response =>
            match guard_not_none_call3 new_token_response.refresh_token
                "No refresh token was generated" "no_refresh_token" with
            | .error e => (.error e, st)
            | .ok new_refresh_token =>
              match upsertRefreshToken M st.db freshIv user_id new_refresh_token
                  new_token_response.session_state
                  (some [("session_id", token_info.session_state)]) with
              | .error e => (.error e, st)
              | .ok (new_token_id, db1) => (.ok new_token_id, { st with db := db1 })

/-- `offline_token_callback` (`offline_token.py`): the Offline-Callback flow.
The `error` query parameter short-circuits; the state token is parsed; the
code is exchanged via the oracle; then the three-argument `guard_not_none`
call is reached. -/
def offline_token_callback (M : CryptoModel) (st : FlowSt) (freshIv : List Char)
    (_code : String) (state : SToken) (error : Option String) (secret now : Nat)
    (exchangeResp : Except Err KeycloakTokenResponse) :
    Except Err (Nat × String) × FlowSt :=
  match error with
  | some err => (.error (.keycloakError s!"Keycloak returned error: {err}" 400), st)
  | none =>
    match parse_state_token secret now state with
    | .error e => (.error e, st)
    | .ok state_payload =>
      let st := logEvent st .providerExchangeCode
      match exchangeResp with
      | .error e => (.error e, st)
      | .ok token_response =>
        match guard_not_none_call3 token_response.refresh_token
            "No refresh token received from Keycloak" "keycloak_error" with
        | .error e => (.error e, st)
        | .ok offline_token =>
          let st2 := logEvent st .vaultStore
          match storeToken M st2.db freshIv state_payload.user_id offline_token .offline
              state_payload.session_state_id
              (some [("scope", token_response.scope),
                     ("token_type", some token_response.token_type)]) with
          | .error e => (.error e, st2)
          | .ok (stored_entry, db1) =>
            (.ok (stored_entry.id, state_payload.session_state_id), { st2 with db := db1 })

/-- `generate_offline_token` (`offline_token_id.py`): the Offline-Renewal
flow.  It introspects, guards `active`, `sub` and `session_state`, looks up
the offline entry by session, calls the provider offline-request grant, and
then hits the three-argument `guard_not_none` call. -/
def generate_offline_token (M : CryptoModel) (st : FlowSt) (freshIv : List Char)
    (introspection : Except Err TokenIntrospection)
    (offlineResp : Except Err KeycloakTokenResponse) :
    Except Err (Nat × String) × FlowSt :=
  let st := logEvent st .introspectCall
  match introspection with
  | .error e => (.error e, st)
  | .ok token_info =>
    match guard_condition token_info.active "Access token is not active" "token_not_active" with
    | .error e => (.error e, st)
    | .ok _ =>
      match guard_not_none token_info.sub "Token missing required claim: sub" with
      | .error e => (.error e, st)
      | .ok user_id =>
        match guard_not_none token_info.session_state
            "Token missing required claim: session_state" with
        | .error e => (.error e, st)
        | .ok session_state_id =>
          let st := logEvent st .vaultGetBySession
          match getBySessionState M st.db session_state_id (some .offline) with
          | .error e => (.error e, st)
          | .ok none =>
            (.error (.tokenNotFound "No offline token was found to generate a new one"), st)
          | .ok (some (entry, _decrypted_token)) =>
            let st := logEvent st .providerOfflineRequest
            match offlineResp with
            | .error e => (.error e, st)
            | .ok new_token_response =>
              match guard_not_none_call3 new_token_response.refresh_token
                  "Could not generate new token" "keycloak_error" with
              | .error e => (.error e, st)
              | .ok new_offline_token =>
                let st2 := logEvent st .vaultStore
                match storeToken M st2.db freshIv user_id new_offline_token .offline
                    new_token_response.session_state
                    (some [("scope", new_token_response.scope),
                           ("token_type", some new_token_response.token_type),
                           ("from", some (toString entry.id))]) with
                | .error e => (.error e, st2)
                | .ok (new_entry, db1) =>
                  (.ok (new_entry.id, new_entry.session_state_id), { st2 with db := db1 })

/-! ## Claims C5, C8 and C9 -/

/-- An initial flow state with an empty trace. -/
def initSt (db : DB) : FlowSt := { db := db, events := [] }

/-- A successful provider token response carrying a refresh token. -/
def okResp : KeycloakTokenResponse :=
  { access_token := "a"
    refresh_token := some [7]
    session_state := "s1"
    scope := some "openid offline_access"
    token_type := "Bearer" }

/-- C5 counterexample: with `active = false` and `session_state` absent (but
`sub` present), the Refresh-Rotation flow performs the vault lookup — the
trace contains the lookup event — and fails (here: empty vault) with
`InvalidRequestError`, never with a `TokenNotActive` or missing-claim
failure before the lookup. -/
theorem refresh_flow_validate_counterexample :
    make_new_refresh_token_id idModel (initSt emptyDb) zeroIvHex
      (.ok { active := false, sub := some "u1", session_state := none })
      (.ok okResp) =
    (.error (.invalidRequest "No session nor was found"),
      { db := emptyDb, events := [.introspectCall, .vaultGetByUser] }) := by
  decide

/-- C5 (amended): before any vault or provider step the Refresh-Rotation
flow checks only that the `sub` claim is present (failing with
`ValidationError` when absent); it checks neither `active` nor
`session_state`, and whenever `sub` is present it proceeds to the vault
lookup regardless of the other introspection fields. -/
theorem refresh_flow_validate_spec (M : CryptoModel) (st : FlowSt) (iv : List Char)
    (ti : TokenIntrospection) (resp : Except Err KeycloakTokenResponse) :
    (ti.sub = none →
      make_new_refresh_token_id M st iv (.ok ti) resp =
        (.error (.validationError "Token missing required claim: sub"),
          logEvent st .introspectCall)) ∧
    (∀ u, ti.sub = some u →
      Event.vaultGetByUser ∈ (make_new_refresh_token_id M st iv (.ok ti) resp).2.events) := by
  constructor
  · intro hsub
    unfold make_new_refresh_token_id guard_not_none
    simp only [hsub]
  · intro u hsub
    unfold make_new_refresh_token_id guard_not_none
    simp only [hsub]
    have hmem : Event.vaultGetByUser ∈
        (logEvent (logEvent st .introspectCall) .vaultGetByUser).events := by
      simp [logEvent]
    rcases hg : getByUserId M (logEvent (logEvent st .introspectCall) .vaultGetByUser).db u
        (some .refresh) with e | entry?
    · simp only [hg]
      exact hmem
    · rcases entry? with _ | ⟨entry, dec⟩
      · simp only [hg]
        exact hmem
      · simp only [hg]
        by_cases hf : (pyFalsy entry.encrypted_token || pyFalsy entry.iv) = true
        · rw [if_pos hf]
          exact hmem
        · rw [if_neg hf]
          have hmem2 : Event.vaultGetByUser ∈
              (logEvent (logEvent (logEvent st .introspectCall) .vaultGetByUser)
                .providerRefresh).events := by
            simp [logEvent]
          rcases resp with _ | r
          · exact hmem2
          · rcases hup : upsertRefreshToken M
                (logEvent (logEvent (logEvent st .introspectCall) .vaultGetByUser)
                  .providerRefresh).db iv u
                (match guard_not_none_call3 r.refresh_token "No refresh token was generated"
                  "no_refresh_token" with
                 | .error _ => [] | .ok v => v) r.session_state
                (some [("session_id", ti.session_state)]) with e2 | p
            · exact hmem2
            · exact hmem2

/-- Witness for C5 (amended): both conjuncts at concrete introspections. -/
theorem refresh_flow_validate_spec_witness :
    make_new_refresh_token_id idModel (initSt emptyDb) zeroIvHex
      (.ok { active := true, sub := none, session_state := some "s1" }) (.ok okResp) =
      (.error (.validationError "Token missing required claim: sub"),
        logEvent (initSt emptyDb) .introspectCall) ∧
    Event.vaultGetByUser ∈
      (make_new_refresh_token_id idModel (initSt emptyDb) zeroIvHex
        (.ok { active := false, sub := some "u1", session_state := none })
        (.ok okResp)).2.events :=
  ⟨(refresh_flow_validate_spec idModel (initSt emptyDb) zeroIvHex
      { active := true, sub := none, session_state := some "s1" } (.ok okResp)).1 rfl,
    (refresh_flow_validate_spec idModel (initSt emptyDb) zeroIvHex
      { active := false, sub := some "u1", session_state := none } (.ok okResp)).2
      "u1" rfl⟩

/-- C8: the Offline-Callback flow with the `error` parameter present fails
with `KeycloakError` immediately (empty trace: no state parsing effect, no
provider call); without it, even when the code exchange succeeds and the
response carries a refresh token, the flow crashes with `TypeError` at the
three-argument `guard_not_none` call — the token is never stored and no
vault id is returned, contradicting both the missing-refresh `ProviderError`
clause and the success clause of the claim. -/
theorem offline_callback_type_error :
    offline_token_callback idModel (initSt emptyDb) zeroIvHex "code"
      (generate_state_token 0 0 "u1" "s1" 600) (some "access_denied") 0 0
      (.ok okResp) =
      (.error (.keycloakError "Keycloak returned error: access_denied" 400),
        initSt emptyDb) ∧
    offline_token_callback idModel (initSt emptyDb) zeroIvHex "code"
      (generate_state_token 0 0 "u1" "s1" 600) none 0 0 (.ok okResp) =
      (.error (.typeError "guard_not_none() takes 2 positional arguments but 3 were given"),
        { db := emptyDb, events := [.providerExchangeCode] }) := by
  refine ⟨by decide, by decide⟩

/-- An offline vault row whose ciphertext would decrypt successfully. -/
def decryptableRow (i : Nat) (u : String) (tt : TokenType) (ssid : String)
    (created : Nat) : AuthVault :=
  { id := i
    user_id := u
    token_type := tt
    encrypted_token := some validCt
    iv := some zeroIvHex
    token_hash := some []
    token_metadata := none
    session_state_id := ssid
    created_at := created
    updated_at := none }

/-- A vault holding one decryptable offline entry for session `s1`. -/
def oldOfflineDb : DB :=
  { rows := [decryptableRow 1 "u1" .offline "s1" 0], nextId := 2, clock := 1 }

/-- C9: the Offline-Renewal flow passes validation and reaches the vault
lookup — where it dies: `get_by_session_state` finds the single offline row
and `TokenVaultEntry.model_validate` raises pydantic `ValidationError`, so
the provider is never called, nothing is ever stored (no store event,
database unchanged), and the claimed brand-new entry with `metadata.from`
never comes to exist.  (Even with the conversion fixed, the three-argument
`guard_not_none` call at `offline_token_id.py` line 155 would raise
`TypeError` before the store.)  The old row itself is left untouched in the
unchanged database. -/
theorem offline_renewal_crashes_before_store :
    generate_offline_token idModel (initSt oldOfflineDb) zeroIvHex
      (.ok { active := true, sub := some "u1", session_state := some "s1" })
      (.ok okResp) =
      (.error (.pydanticValidationError pydanticMetadataMsg),
        { db := oldOfflineDb,
          events := [.introspectCall, .vaultGetBySession] }) ∧
    oldOfflineDb.rows = [decryptableRow 1 "u1" .offline "s1" 0] := by
  refine ⟨by decide, by decide⟩

end AuthVault
